import Mathlib

/-!
Verification of the XrayR limiter core (`common/limiter/limiter.go`) against
its natural-language specification.

The Go code is shallowly embedded: each `sync.Map` becomes an association
list (`List (κ × α)`), mutation becomes explicit state passing, Go `int`
becomes `Int`, Go `uint64` becomes `Nat`, and the external two-tier cache of
the global device ledger is passed in as the outcome of the single lookup the
code performs (`CacheGet`), with asynchronous writes returned as pending
`CacheWrite` records.  `sync.Map.Range` iteration is determinized to the
stored list order.
-/

/-- Association-list lookup: the value bound to the first occurrence of `k`. -/
def lookupA {κ α : Type} [DecidableEq κ] : List (κ × α) → κ → Option α
  | [], _ => none
  | (k2, v) :: rest, k => if k2 = k then some v else lookupA rest k

/-- `sync.Map.Store`: replace the binding of `k` in place, or append it. -/
def storeA {κ α : Type} [DecidableEq κ] : List (κ × α) → κ → α → List (κ × α)
  | [], k, v => [(k, v)]
  | (k2, v2) :: rest, k, v =>
      if k2 = k then (k, v) :: rest else (k2, v2) :: storeA rest k v

/-- `sync.Map.Delete`: remove every binding of `k`. -/
def deleteA {κ α : Type} [DecidableEq κ] : List (κ × α) → κ → List (κ × α)
  | [], _ => []
  | (k2, v2) :: rest, k =>
      if k2 = k then deleteA rest k else (k2, v2) :: deleteA rest k

/-- `limiter.UserInfo`: value type of the per-inbound user directory. -/
structure UserInfo where
  uid : Int
  speedLimit : Nat
  deviceLimit : Int
deriving DecidableEq

/-- `api.UserInfo`, restricted to the fields the limiter reads. -/
structure ApiUserInfo where
  uid : Int
  email : String
  speedLimit : Nat
  deviceLimit : Int
deriving DecidableEq

/-- `GlobalDeviceLimitConfig`, restricted to the fields the limiter logic
reads (the redis connection parameters only configure the store). -/
structure GlobalDeviceLimitConfig where
  enable : Bool
  timeout : Int
  expiry : Int
deriving DecidableEq

/-- `api.OnlineUser`. -/
structure OnlineUser where
  uid : Int
  ip : String
deriving DecidableEq

/-- `limiter.InboundInfo`.  A `*rate.Limiter` bucket is modelled by its rate
(its limit and burst are both set to that one number by the code).
`globalConfig = some cfg` models `GlobalLimit.config != nil`. -/
structure InboundInfo where
  tag : String
  nodeSpeedLimit : Nat
  userInfo : List (String × UserInfo)
  bucketHub : List (String × Nat)
  userOnlineIP : List (String × List (String × Int))
  onlineDevice : List (Int × String)
  ipAllowedMap : List (String × Int)
  otraffic : List (Int × Int)
  globalConfig : Option GlobalDeviceLimitConfig
deriving DecidableEq

/-- `limiter.Limiter`: the top-level tag → inbound-state map. -/
abbrev Limiter := List (String × InboundInfo)

/-- Outcome of the one cache lookup `globalLimit` performs: `notFound` is the
`*store.NotFound` error (cache miss), `transportError` is any other error
(including a timeout of the distributed tier), `found` is a decoded
IP → UID map. -/
inductive CacheGet where
  | notFound
  | transportError
  | found (entry : List (String × Int))
deriving DecidableEq

/-- A pending asynchronous cache write (`go pushIP(...)`): the key, the
IP → UID map to marshal, and the TTL the backing stores were configured
with (`GlobalDeviceLimitConfig.Expiry`). -/
structure CacheWrite where
  key : String
  entry : List (String × Int)
  ttl : Int
deriving DecidableEq

/-- The triple returned by `GetUserBucket`; the `*rate.Limiter` handle is
modelled by its rate (`none` = nil). -/
structure BucketResult where
  bucket : Option Nat
  speedLimit : Bool
  reject : Bool
deriving DecidableEq

/-- `determineRate`: the minimum non-zero rate (0 = unlimited). -/
def determineRate (nodeLimit userLimit : Nat) : Nat :=
  if nodeLimit = 0 ∨ userLimit = 0 then
    if nodeLimit > userLimit then nodeLimit
    else if nodeLimit < userLimit then userLimit
    else 0
  else
    if nodeLimit > userLimit then userLimit
    else if nodeLimit < userLimit then nodeLimit
    else nodeLimit

/-- `ipAllowed`: classify `ip` against the user's alive-IP list:
0 = no list configured, 1 = in the list (pinned), 2 = not in the list. -/
def ipAllowed (ip : String) (aliveIPs : List String) : Int :=
  if aliveIPs.length = 0 then 0
  else if aliveIPs.contains ip then 1
  else 2

/-- `GetUserAliveIPs`: read of the process-wide `api.UserAliveIPsMap`,
passed here explicitly; a missing entry is the empty list (Go nil). -/
def getUserAliveIPs (aliveMap : List (Int × List String)) (user : Int) : List String :=
  (lookupA aliveMap user).getD []

/-- Go `strings.Replace(s, pat, rep, 1)`: replace the first occurrence. -/
def replaceFirst (s pat rep : String) : String :=
  match s.splitOn pat with
  | [] => s
  | [x] => x
  | x :: y :: rest => x ++ rep ++ String.intercalate pat (y :: rest)

/-- `fmt.Sprintf("%s|%s|%d", tag, email, uid)`: the composite user key. -/
def compositeKey (tag email : String) (uid : Int) : String :=
  tag ++ "|" ++ email ++ "|" ++ toString uid

/-- `globalLimit`: decide the global-ledger admission from the outcome of
the single cache lookup; the second component is the asynchronous
`pushIP` write the code dispatches, if any. -/
def globalLimit (info : InboundInfo) (email : String) (uid : Int) (ip : String)
    (deviceLimit : Int) (cfg : GlobalDeviceLimitConfig) (cacheGet : CacheGet) :
    Bool × Option CacheWrite :=
  let uniqueKey := replaceFirst email info.tag (toString deviceLimit)
  match cacheGet with
  | CacheGet.notFound => (false, some ⟨uniqueKey, [(ip, uid)], cfg.expiry⟩)
  | CacheGet.transportError => (false, none)
  | CacheGet.found ipMap =>
      if deviceLimit > 0 ∧ (ipMap.length : Int) > deviceLimit then
        (true, none)
      else if (lookupA ipMap ip).isNone then
        (false, some ⟨uniqueKey, storeA ipMap ip uid, cfg.expiry⟩)
      else
        (false, none)

/-- `GetUserBucket`.  `aliveMap` is the process-wide alive-IP table and
`cacheGet` the outcome of the global-ledger lookup for this call (only
consulted when global limiting is enabled). -/
def getUserBucket (l : Limiter) (tag email ip : String) (isSourceTCP : Bool)
    (aliveMap : List (Int × List String)) (cacheGet : CacheGet) :
    BucketResult × Limiter :=
  match lookupA l tag with
  | none => (⟨none, false, false⟩, l)
  | some info0 =>
      let u := (lookupA info0.userInfo email).getD ⟨0, 0, 0⟩
      let uid := u.uid
      let userLimit := u.speedLimit
      let deviceLimit := u.deviceLimit
      let nodeLimit := info0.nodeSpeedLimit
      let tcp : Bool × InboundInfo :=
        if isSourceTCP then
          let aliveIPs := getUserAliveIPs aliveMap uid
          let ipStatus := ipAllowed ip aliveIPs
          let info1 := { info0 with ipAllowedMap := storeA info0.ipAllowedMap ip ipStatus }
          if ipStatus = 2 ∧ deviceLimit > 0 ∧ deviceLimit ≤ (aliveIPs.length : Int) then
            (true, info1)
          else
            match lookupA info1.userOnlineIP email with
            | none =>
                (false, { info1 with
                    userOnlineIP := storeA info1.userOnlineIP email [(ip, uid)] })
            | some ipMap =>
                match lookupA ipMap ip with
                | some _ => (false, info1)
                | none =>
                    let ipMap2 := storeA ipMap ip uid
                    let counter : Int := ipMap2.length
                    if ipStatus ≠ 1 ∧ deviceLimit > 0 ∧
                        deviceLimit < counter + (aliveIPs.length : Int) then
                      (true, { info1 with
                          userOnlineIP :=
                            storeA info1.userOnlineIP email (deleteA ipMap2 ip) })
                    else
                      (false, { info1 with
                          userOnlineIP := storeA info1.userOnlineIP email ipMap2 })
        else (false, info0)
      if tcp.1 then (⟨none, false, true⟩, storeA l tag tcp.2)
      else
        let info2 := tcp.2
        let grej : Bool :=
          match info2.globalConfig with
          | some cfg =>
              if cfg.enable then
                (globalLimit info2 email uid ip deviceLimit cfg cacheGet).1
              else false
          | none => false
        if grej then (⟨none, false, true⟩, storeA l tag info2)
        else
          let limit := determineRate nodeLimit userLimit
          if limit > 0 then
            match lookupA info2.bucketHub email with
            | some bucket => (⟨some bucket, true, false⟩, storeA l tag info2)
            | none =>
                (⟨some limit, true, false⟩,
                 storeA l tag { info2 with bucketHub := storeA info2.bucketHub email limit })
          else
            (⟨none, false, false⟩, storeA l tag info2)

/-- `AddInboundLimiter`: build a fresh `InboundInfo` and replace any prior
state for the tag; the global config is kept only when enabled. -/
def addInboundLimiter (l : Limiter) (tag : String) (nodeSpeedLimit : Nat)
    (userList : List ApiUserInfo) (gcfg : Option GlobalDeviceLimitConfig) :
    Option String × Limiter :=
  let cfgStored := match gcfg with
    | some cfg => if cfg.enable then some cfg else none
    | none => none
  let userMap := userList.foldl
    (fun m u => storeA m (compositeKey tag u.email u.uid) ⟨u.uid, u.speedLimit, u.deviceLimit⟩)
    []
  (none, storeA l tag ⟨tag, nodeSpeedLimit, userMap, [], [], [], [], [], cfgStored⟩)

/-- One iteration of the `UpdateInboundLimiter` loop: store the refreshed
quota under the composite key, then adjust the existing bucket to the new
effective rate, or delete the bucket when the rate is 0. -/
def updateUserEntry (tag : String) (acc : InboundInfo) (u : ApiUserInfo) : InboundInfo :=
  let key := compositeKey tag u.email u.uid
  let acc1 := { acc with
    userInfo := storeA acc.userInfo key ⟨u.uid, u.speedLimit, u.deviceLimit⟩ }
  let limit := determineRate acc1.nodeSpeedLimit u.speedLimit
  if limit > 0 then
    match lookupA acc1.bucketHub key with
    | some _ => { acc1 with bucketHub := storeA acc1.bucketHub key limit }
    | none => acc1
  else
    { acc1 with bucketHub := deleteA acc1.bucketHub key }

/-- `UpdateInboundLimiter`: refresh quota entries for the supplied users and
adjust (or delete) their buckets; unknown tag is an error. -/
def updateInboundLimiter (l : Limiter) (tag : String) (updatedUserList : List ApiUserInfo) :
    Option String × Limiter :=
  match lookupA l tag with
  | none => (some ("no such inbound in limiter: " ++ tag), l)
  | some info =>
      (none, storeA l tag (updatedUserList.foldl (updateUserEntry tag) info))

/-- `DeleteInboundLimiter`. -/
def deleteInboundLimiter (l : Limiter) (tag : String) : Option String × Limiter :=
  (none, deleteA l tag)

/-- `ResetOtraffic`: replace the traffic accumulator with a fresh map; an
unknown tag is silently ignored and the returned error is always nil. -/
def resetOtraffic (l : Limiter) (tag : String) : Option String × Limiter :=
  match lookupA l tag with
  | none => (none, l)
  | some info => (none, storeA l tag { info with otraffic := [] })

/-- State of `GetOnlineDevice`'s inner loop over one user's IP map:
the growing result list, the diff flag, the freshly rebuilt traffic
accumulator and online snapshot, and the per-user loop variables
`uid`, `X`, `A`, `pip` of the Go code. -/
structure IPFoldState where
  ou : List OnlineUser
  diff : Bool
  otr : List (Int × Int)
  od : List (Int × String)
  uid : Int
  x : Int
  a : Int
  pip : String
deriving DecidableEq

/-- The loop of `GetOnlineDevice` over one user's IP map (`ipMap.Range`).
`iam` is the inbound's allow-status cache, `traffic` the cumulative
counters (missing key = 0), `prevT`/`prevO` the snapshots of the traffic
accumulator and online map taken at cycle start. -/
def goOnlineIPs (iam : List (String × Int)) (traffic prevT : List (Int × Int))
    (prevO : List (Int × String)) (T : Int) :
    List (String × Int) → IPFoldState → IPFoldState
  | [], st => st
  | (ip, uidv) :: rest, st =>
      let uid := uidv
      let a := (lookupA iam ip).getD st.a
      let otr := storeA st.otr uid ((lookupA traffic uid).getD 0)
      let x := (lookupA traffic uid).getD 0 - (lookupA prevT uid).getD 0
      let pip := (lookupA prevO uid).getD ""
      if a ≠ 2 then
        let ip2 := if x ≤ T then "" else ip
        let diff := if pip ≠ ip2 then true else st.diff
        goOnlineIPs iam traffic prevT prevO T rest
          ⟨st.ou ++ [⟨uid, ip2⟩], diff, otr, storeA st.od uid ip2, uid, x, a, pip⟩
      else
        goOnlineIPs iam traffic prevT prevO T rest
          ⟨st.ou, st.diff, otr, st.od, uid, x, a, pip⟩

/-- State of `GetOnlineDevice`'s outer loop over users: the accumulators
plus the entries of `UserOnlineIP` that survive the cycle (the code
deletes an entry when `A == 2 || X <= T`). -/
structure EmailFoldState where
  ou : List OnlineUser
  diff : Bool
  otr : List (Int × Int)
  od : List (Int × String)
  keep : List (String × List (String × Int))
deriving DecidableEq

/-- The loop of `GetOnlineDevice` over `UserOnlineIP` (`Range` determinized
to stored order); `uid`, `X`, `A`, `pip` restart at their zero values for
each user. -/
def goOnlineEmails (iam : List (String × Int)) (traffic prevT : List (Int × Int))
    (prevO : List (Int × String)) (T : Int) :
    List (String × List (String × Int)) → EmailFoldState → EmailFoldState
  | [], st => st
  | (email, ipMap) :: rest, st =>
      let r := goOnlineIPs iam traffic prevT prevO T ipMap
        ⟨st.ou, st.diff, st.otr, st.od, 0, 0, 0, ""⟩
      let keep :=
        if r.a = 2 ∨ r.x ≤ T then st.keep else st.keep ++ [(email, ipMap)]
      goOnlineEmails iam traffic prevT prevO T rest ⟨r.ou, r.diff, r.otr, r.od, keep⟩

/-- `GetOnlineDevice`: prune buckets of users with no online IP, snapshot
and reset the traffic accumulator and online map, then rebuild them while
collecting the reported online users and the change flag. -/
def getOnlineDevice (l : Limiter) (tag : String) (userTraffic : List (Int × Int))
    (T : Int) : Except String (List OnlineUser × Bool) × Limiter :=
  match lookupA l tag with
  | none => (Except.error ("no such inbound in limiter: " ++ tag), l)
  | some info =>
      let bucketHub2 :=
        info.bucketHub.filter (fun kv => (lookupA info.userOnlineIP kv.1).isSome)
      let r := goOnlineEmails info.ipAllowedMap userTraffic info.otraffic
        info.onlineDevice T info.userOnlineIP ⟨[], false, [], [], []⟩
      let info2 : InboundInfo :=
        { info with bucketHub := bucketHub2, otraffic := r.otr,
                    onlineDevice := r.od, userOnlineIP := r.keep }
      (Except.ok (r.ou, r.diff), storeA l tag info2)

/-! ## Association-list lemmas -/

theorem lookupA_storeA_self {κ α : Type} [DecidableEq κ] (m : List (κ × α)) (k : κ) (v : α) :
    lookupA (storeA m k v) k = some v := by
  induction m with
  | nil => simp [storeA, lookupA]
  | cons hd tl ih =>
      obtain ⟨k2, v2⟩ := hd
      by_cases h : k2 = k <;> simp [storeA, lookupA, h, ih]

theorem lookupA_storeA_ne {κ α : Type} [DecidableEq κ] (m : List (κ × α)) (k k2 : κ) (v : α)
    (h : k ≠ k2) : lookupA (storeA m k v) k2 = lookupA m k2 := by
  induction m with
  | nil => simp [storeA, lookupA, h]
  | cons hd tl ih =>
      obtain ⟨k3, v3⟩ := hd
      by_cases h3 : k3 = k
      · subst h3; simp [storeA, lookupA, h]
      · simp [storeA, lookupA, h3, ih]

theorem lookupA_deleteA_self {κ α : Type} [DecidableEq κ] (m : List (κ × α)) (k : κ) :
    lookupA (deleteA m k) k = none := by
  induction m with
  | nil => simp [deleteA, lookupA]
  | cons hd tl ih =>
      obtain ⟨k2, v2⟩ := hd
      by_cases h : k2 = k <;> simp [deleteA, lookupA, h, ih]

theorem storeA_length_of_absent {κ α : Type} [DecidableEq κ] (m : List (κ × α)) (k : κ)
    (v : α) (h : lookupA m k = none) : (storeA m k v).length = m.length + 1 := by
  induction m with
  | nil => simp [storeA]
  | cons hd tl ih =>
      obtain ⟨k2, v2⟩ := hd
      by_cases h2 : k2 = k
      · simp [lookupA, h2] at h
      · simp only [lookupA, h2, if_false] at h
        simp [storeA, h2, ih h]

/-! ## Claim theorems -/

/-- C2: `determineRate(nodeLimit, userLimit)`: the result is 0 iff both
inputs are 0; if exactly one input is 0 the result is the other input; if
both are non-zero the result is the minimum; and the four quoted
evaluations hold. -/
theorem determineRate_spec (a b : Nat) :
    (determineRate a b = 0 ↔ a = 0 ∧ b = 0) ∧
    (a = 0 → b ≠ 0 → determineRate a b = b) ∧
    (b = 0 → a ≠ 0 → determineRate a b = a) ∧
    (a ≠ 0 → b ≠ 0 → determineRate a b = min a b) ∧
    determineRate 0 100 = 100 ∧ determineRate 50 0 = 50 ∧
    determineRate 30 80 = 30 ∧ determineRate 0 0 = 0 := by
  refine ⟨?_, ?_, ?_, ?_, by decide, by decide, by decide, by decide⟩ <;>
  · simp only [determineRate]
    split_ifs <;> omega

/-- Witness for C2 at concrete inputs. -/
theorem determineRate_spec_witness :
    (30 : Nat) ≠ 0 ∧ (80 : Nat) ≠ 0 ∧ determineRate 30 80 = min 30 80 :=
  ⟨by decide, by decide, (determineRate_spec 30 80).2.2.2.1 (by decide) (by decide)⟩

/-- C4: Global ledger fail-open: a cache miss yields not-rejected plus an
asynchronous write of the single-entry map at the configured TTL; any other
lookup error (transport failure, timeout of the distributed tier) yields
not-rejected with no write; consequently a connection whose global lookup
misses or fails is never rejected by `GetUserBucket` on that account. -/
theorem globalLimit_fail_open :
    (∀ (info : InboundInfo) (email : String) (uid : Int) (ip : String)
       (dl : Int) (cfg : GlobalDeviceLimitConfig),
       globalLimit info email uid ip dl cfg CacheGet.notFound =
         (false, some ⟨replaceFirst email info.tag (toString dl), [(ip, uid)], cfg.expiry⟩)) ∧
    (∀ (info : InboundInfo) (email : String) (uid : Int) (ip : String)
       (dl : Int) (cfg : GlobalDeviceLimitConfig),
       globalLimit info email uid ip dl cfg CacheGet.transportError = (false, none)) ∧
    (∀ (l : Limiter) (tag email ip : String) (aliveMap : List (Int × List String))
       (cg : CacheGet) (info : InboundInfo),
       lookupA l tag = some info →
       (cg = CacheGet.notFound ∨ cg = CacheGet.transportError) →
       (getUserBucket l tag email ip false aliveMap cg).1.reject = false) := by
  refine ⟨fun _ _ _ _ _ _ => rfl, fun _ _ _ _ _ _ => rfl, ?_⟩
  intro l tag email ip aliveMap cg info hlk hcg
  simp only [getUserBucket, hlk]
  have hgl : ∀ cfg : GlobalDeviceLimitConfig,
      (globalLimit info email ((lookupA info.userInfo email).getD ⟨0, 0, 0⟩).uid ip
        ((lookupA info.userInfo email).getD ⟨0, 0, 0⟩).deviceLimit cfg cg).1 = false := by
    intro cfg
    rcases hcg with h | h <;> subst h <;> rfl
  cases hgc : info.globalConfig with
  | none =>
      simp only [Bool.false_eq_true, if_false, hgc]
      split
      · split <;> rfl
      · rfl
  | some cfg =>
      simp only [Bool.false_eq_true, if_false, hgc, hgl]
      cases cfg.enable <;> simp only [Bool.false_eq_true, if_false, if_true]
      · split
        · split <;> rfl
        · rfl
      · split
        · split <;> rfl
        · rfl

/-- Witness for C4: a transport error on a concrete single-inbound state is
admitted. -/
theorem globalLimit_fail_open_witness :
    (getUserBucket [("t1", ⟨"t1", 0, [], [], [], [], [], [],
        some ⟨true, 1, 60⟩⟩)] "t1" "e" "1.2.3.4" false [] CacheGet.transportError).1.reject
      = false :=
  globalLimit_fail_open.2.2 [("t1", ⟨"t1", 0, [], [], [], [], [], [], some ⟨true, 1, 60⟩⟩)]
    "t1" "e" "1.2.3.4" [] CacheGet.transportError
    ⟨"t1", 0, [], [], [], [], [], [], some ⟨true, 1, 60⟩⟩ rfl (Or.inr rfl)

/-- C5: Global ledger cache hit: with a non-negative device limit, the
check rejects iff the limit is non-zero and the decoded map has more
entries than the limit; otherwise a new IP is merged into the map and
written back asynchronously, and an already-present IP triggers no write. -/
theorem globalLimit_cache_hit (info : InboundInfo) (email : String) (uid : Int)
    (ip : String) (dl : Int) (cfg : GlobalDeviceLimitConfig)
    (m : List (String × Int)) (hdl : 0 ≤ dl) :
    ((globalLimit info email uid ip dl cfg (CacheGet.found m)).1 = true ↔
       dl ≠ 0 ∧ (m.length : Int) > dl) ∧
    (lookupA m ip = none → ¬(dl ≠ 0 ∧ (m.length : Int) > dl) →
       globalLimit info email uid ip dl cfg (CacheGet.found m) =
         (false, some ⟨replaceFirst email info.tag (toString dl),
                       storeA m ip uid, cfg.expiry⟩)) ∧
    (∀ v, lookupA m ip = some v → ¬(dl ≠ 0 ∧ (m.length : Int) > dl) →
       globalLimit info email uid ip dl cfg (CacheGet.found m) = (false, none)) := by
  refine ⟨?_, ?_, ?_⟩
  · simp only [globalLimit]
    split_ifs with h1 h2 <;> simp <;> omega
  · intro hnone hnc
    simp only [globalLimit, hnone, Option.isNone_none, if_true]
    split_ifs with h1
    · exfalso; omega
    · rfl
  · intro v hsome hnc
    simp only [globalLimit, hsome, Option.isNone_some, Bool.false_eq_true, if_false]
    split_ifs with h1
    · exfalso; omega
    · rfl

/-- Witness for C5 at a concrete hit whose map exceeds the limit. -/
theorem globalLimit_cache_hit_witness :
    (0 : Int) ≤ 1 ∧
    ((globalLimit ⟨"t1", 0, [], [], [], [], [], [], none⟩ "e" 7 "c" 1 ⟨true, 1, 60⟩
        (CacheGet.found [("a", 7), ("b", 7)])).1 = true ↔
      (1 : Int) ≠ 0 ∧ (([("a", 7), ("b", 7)] : List (String × Int)).length : Int) > 1) :=
  ⟨by decide,
   (globalLimit_cache_hit ⟨"t1", 0, [], [], [], [], [], [], none⟩ "e" 7 "c" 1
      ⟨true, 1, 60⟩ [("a", 7), ("b", 7)] (by decide)).1⟩

/-- C9 counterexample: on an unknown tag, `GetUserBucket` returns exactly
the same (nil bucket, no speed limit, not rejected) triple as a configured
inbound with no bucket (speed limit 0), so the two outcomes are not
distinguishable; and `ResetOtraffic` on an unknown tag returns a nil error
instead of reporting the configuration error. -/
theorem unknown_inbound_outcomes_cex :
    (resetOtraffic [("t1", ⟨"t1", 0, [], [], [], [], [], [], none⟩)] "ghost").1 = none ∧
    (getUserBucket [("t1", ⟨"t1", 0, [], [], [], [], [], [], none⟩)]
        "ghost" "e" "1.2.3.4" false [] CacheGet.transportError).1 =
      (getUserBucket [("t1", ⟨"t1", 0, [], [], [], [], [], [], none⟩)]
        "t1" "e" "1.2.3.4" false [] CacheGet.transportError).1 := by
  exact ⟨rfl, rfl⟩

/-- C9 amended: `UpdateInboundLimiter` and `GetOnlineDevice` do return a
distinct "no such inbound" error value on an unknown tag; but
`GetUserBucket` on an unknown tag returns the same triple as the
no-bucket-configured outcome, and `ResetOtraffic` always returns a nil
error, silently ignoring an unknown tag. -/
theorem unknown_inbound_error_reporting :
    (∀ (l : Limiter) (tag : String) (users : List ApiUserInfo),
       lookupA l tag = none →
       updateInboundLimiter l tag users =
         (some ("no such inbound in limiter: " ++ tag), l)) ∧
    (∀ (l : Limiter) (tag : String) (traffic : List (Int × Int)) (T : Int),
       lookupA l tag = none →
       getOnlineDevice l tag traffic T =
         (Except.error ("no such inbound in limiter: " ++ tag), l)) ∧
    (∀ (l : Limiter) (tag email ip : String) (tcp : Bool)
       (am : List (Int × List String)) (cg : CacheGet),
       lookupA l tag = none →
       getUserBucket l tag email ip tcp am cg = (⟨none, false, false⟩, l)) ∧
    (∀ (l : Limiter) (tag : String), (resetOtraffic l tag).1 = none) := by
  refine ⟨?_, ?_, ?_, ?_⟩
  · intro l tag users h
    simp [updateInboundLimiter, h]
  · intro l tag traffic T h
    simp [getOnlineDevice, h]
  · intro l tag email ip tcp am cg h
    simp [getUserBucket, h]
  · intro l tag
    unfold resetOtraffic
    cases lookupA l tag <;> rfl

/-- Witness for C9's amended statement on a concrete empty registry. -/
theorem unknown_inbound_error_reporting_witness :
    updateInboundLimiter [] "ghost" [] =
      (some ("no such inbound in limiter: " ++ "ghost"), []) :=
  unknown_inbound_error_reporting.1 [] "ghost" [] rfl

/-- C8 counterexample: on an early reject (unpinned IP, device limit 1,
allow-list of size 1), `GetUserBucket` rejects but the allow-status cache
of the inbound has been mutated: the IP's classification is stored before
the check, so the cache grows from empty to one entry. -/
theorem getUserBucket_early_reject_mutates_cex :
    ((getUserBucket [("in", ⟨"in", 0, [("e", ⟨7, 0, 1⟩)], [], [], [], [], [], none⟩)]
        "in" "e" "A" true [(7, ["P"])] CacheGet.transportError).1.reject = true) ∧
    (lookupA (getUserBucket [("in", ⟨"in", 0, [("e", ⟨7, 0, 1⟩)], [], [], [], [], [], none⟩)]
        "in" "e" "A" true [(7, ["P"])] CacheGet.transportError).2 "in" =
      some ⟨"in", 0, [("e", ⟨7, 0, 1⟩)], [], [], [], [("A", 2)], [], none⟩) ∧
    ([("A", (2 : Int))] : List (String × Int)) ≠ [] := by
  exact ⟨rfl, rfl, by decide⟩

/-- C8 amended: when the IP classifies as unpinned (2), the device limit is
positive and the allow-list size alone meets or exceeds it, `GetUserBucket`
rejects immediately, and the only mutation is to the allow-status cache,
which records classification 2 for this IP; the online-IP set, bucket
table, traffic accumulator and every other inbound are unchanged. -/
theorem getUserBucket_early_reject_frame
    (l : Limiter) (tag email ip : String) (aliveMap : List (Int × List String))
    (cg : CacheGet) (info : InboundInfo)
    (hlk : lookupA l tag = some info)
    (hstat : ipAllowed ip (getUserAliveIPs aliveMap
        ((lookupA info.userInfo email).getD ⟨0, 0, 0⟩).uid) = 2)
    (hdl : ((lookupA info.userInfo email).getD ⟨0, 0, 0⟩).deviceLimit > 0)
    (hge : ((lookupA info.userInfo email).getD ⟨0, 0, 0⟩).deviceLimit ≤
        (((getUserAliveIPs aliveMap
            ((lookupA info.userInfo email).getD ⟨0, 0, 0⟩).uid).length : Int))) :
    (getUserBucket l tag email ip true aliveMap cg).1 = ⟨none, false, true⟩ ∧
    lookupA (getUserBucket l tag email ip true aliveMap cg).2 tag =
      some { info with ipAllowedMap := storeA info.ipAllowedMap ip 2 } ∧
    (∀ t, t ≠ tag →
      lookupA (getUserBucket l tag email ip true aliveMap cg).2 t = lookupA l t) := by
  have hc : ipAllowed ip (getUserAliveIPs aliveMap
        ((lookupA info.userInfo email).getD ⟨0, 0, 0⟩).uid) = 2 ∧
      ((lookupA info.userInfo email).getD ⟨0, 0, 0⟩).deviceLimit > 0 ∧
      ((lookupA info.userInfo email).getD ⟨0, 0, 0⟩).deviceLimit ≤
        (((getUserAliveIPs aliveMap
            ((lookupA info.userInfo email).getD ⟨0, 0, 0⟩).uid).length : Int)) :=
    ⟨hstat, hdl, hge⟩
  simp only [getUserBucket, hlk, if_pos hc]
  refine ⟨rfl, ?_, ?_⟩
  · rw [hstat]
    exact lookupA_storeA_self l tag _
  · intro t ht
    rw [hstat]
    exact lookupA_storeA_ne l tag t _ (fun h => ht h.symm)

/-- C3 counterexample: device limit 2, allow-list `["P"]`, and the pinned IP
`P` already registered in the user's online set.  The unpinned IP `A` — the
user's only non-pinned device — is rejected, because the pinned IP is
counted toward the denominator twice: once as a member of the online set
and once via the allow-list size (2 < 2 + 1). -/
theorem getUserBucket_pinned_counted_cex :
    ipAllowed "P" ["P"] = 1 ∧
    (getUserBucket
        [("in", ⟨"in", 0, [("e", ⟨7, 0, 2⟩)], [], [("e", [("P", 7)])], [], [], [], none⟩)]
        "in" "e" "A" true [(7, ["P"])] CacheGet.transportError).1.reject = true := by
  exact ⟨rfl, rfl⟩

/-- C3 amended: an attempt from a pinned IP itself is never rejected (shown
here with global limiting disabled; the local device check skips both of
its rejection tests for classification 1).  Pinned IPs are, however,
counted toward the device-limit denominator of other attempts: the
allow-list size is always added, and a registered pinned IP also counts in
the online-set size. -/
theorem getUserBucket_pinned_ip_not_rejected
    (l : Limiter) (tag email ip : String) (aliveMap : List (Int × List String))
    (cg : CacheGet) (info : InboundInfo)
    (hlk : lookupA l tag = some info)
    (hglob : info.globalConfig = none)
    (hpin : ipAllowed ip (getUserAliveIPs aliveMap
        ((lookupA info.userInfo email).getD ⟨0, 0, 0⟩).uid) = 1) :
    (getUserBucket l tag email ip true aliveMap cg).1.reject = false := by
  have hne : ¬(ipAllowed ip (getUserAliveIPs aliveMap
        ((lookupA info.userInfo email).getD ⟨0, 0, 0⟩).uid) = 2 ∧
      ((lookupA info.userInfo email).getD ⟨0, 0, 0⟩).deviceLimit > 0 ∧
      ((lookupA info.userInfo email).getD ⟨0, 0, 0⟩).deviceLimit ≤
        (((getUserAliveIPs aliveMap
            ((lookupA info.userInfo email).getD ⟨0, 0, 0⟩).uid).length : Int))) := by
    rw [hpin]
    rintro ⟨h12, -⟩
    exact absurd h12 (by decide)
  simp only [getUserBucket, hlk, if_neg hne]
  cases h1 : lookupA info.userOnlineIP email with
  | none =>
      simp only [hglob, if_true, Bool.false_eq_true, if_false]
      split
      · split <;> rfl
      · rfl
  | some ipMap =>
      cases h2 : lookupA ipMap ip with
      | some v =>
          simp only [hglob, h2, if_true, Bool.false_eq_true, if_false]
          split
          · split <;> rfl
          · rfl
      | none =>
          have hne2 : ¬(ipAllowed ip (getUserAliveIPs aliveMap
                ((lookupA info.userInfo email).getD ⟨0, 0, 0⟩).uid) ≠ 1 ∧
              ((lookupA info.userInfo email).getD ⟨0, 0, 0⟩).deviceLimit > 0 ∧
              ((lookupA info.userInfo email).getD ⟨0, 0, 0⟩).deviceLimit <
                (((storeA ipMap ip
                    ((lookupA info.userInfo email).getD ⟨0, 0, 0⟩).uid).length : Int)) +
                (((getUserAliveIPs aliveMap
                    ((lookupA info.userInfo email).getD ⟨0, 0, 0⟩).uid).length : Int))) :=
            fun hcon => absurd hpin hcon.1
          simp only [hglob, h2, if_true]
          rw [if_neg hne2]
          simp only [Bool.false_eq_true, if_false]
          split
          · split <;> rfl
          · rfl

/-- Witness for C3's amended statement: a pinned IP is admitted even though
the user already has two other registered IPs under device limit 1. -/
theorem getUserBucket_pinned_ip_not_rejected_witness :
    (getUserBucket
        [("in", ⟨"in", 0, [("e", ⟨7, 0, 1⟩)], [],
          [("e", [("A", 7), ("B", 7)])], [], [], [], none⟩)]
        "in" "e" "P" true [(7, ["P"])] CacheGet.transportError).1.reject = false :=
  getUserBucket_pinned_ip_not_rejected
    [("in", ⟨"in", 0, [("e", ⟨7, 0, 1⟩)], [], [("e", [("A", 7), ("B", 7)])], [], [], [], none⟩)]
    "in" "e" "P" [(7, ["P"])] CacheGet.transportError
    ⟨"in", 0, [("e", ⟨7, 0, 1⟩)], [], [("e", [("A", 7), ("B", 7)])], [], [], [], none⟩
    rfl rfl (by decide)

/-- Witness for C8's amended statement at a concrete early-reject state. -/
theorem getUserBucket_early_reject_frame_witness :
    (getUserBucket [("in", ⟨"in", 0, [("e", ⟨7, 0, 1⟩)], [], [], [], [], [], none⟩)]
        "in" "e" "B" true [(7, ["P"])] CacheGet.notFound).1 = ⟨none, false, true⟩ :=
  (getUserBucket_early_reject_frame
    [("in", ⟨"in", 0, [("e", ⟨7, 0, 1⟩)], [], [], [], [], [], none⟩)]
    "in" "e" "B" [(7, ["P"])] CacheGet.notFound
    ⟨"in", 0, [("e", ⟨7, 0, 1⟩)], [], [], [], [], [], none⟩
    rfl (by decide) (by decide) (by decide)).1

theorem ipAllowed_mem (ip : String) (a : List String) :
    ipAllowed ip a = 0 ∨ ipAllowed ip a = 1 ∨ ipAllowed ip a = 2 := by
  unfold ipAllowed
  split_ifs <;> simp

theorem ipAllowed_zero_length (ip : String) (a : List String)
    (h : ipAllowed ip a = 0) : a.length = 0 := by
  unfold ipAllowed at h
  split_ifs at h with h1 h2
  · exact h1
  · exact absurd h (by decide)
  · exact absurd h (by decide)

/-- C1: Local device-limit enforcement in `GetUserBucket` (global limiting
disabled): on a connection-oriented attempt with an IP new to the user's
online set, the set size after registration plus the allow-list size is
compared with the device limit — if the classification is not pinned, the
limit is positive and the count exceeds it, the call rejects and the IP is
not left registered; otherwise the call is not rejected and the IP stays
registered.  Concretely, with device limit 2 and an empty allow-list,
admitting A then B succeeds, a third IP C is rejected, and re-admitting A
succeeds with the set still of size 2. -/
theorem getUserBucket_local_device_limit :
    (∀ (l : Limiter) (tag email ip : String) (aliveMap : List (Int × List String))
       (cg : CacheGet) (info : InboundInfo) (u : UserInfo)
       (s : List (String × Int)) (st cnt : Int),
       lookupA l tag = some info →
       info.globalConfig = none →
       (lookupA info.userInfo email).getD ⟨0, 0, 0⟩ = u →
       (lookupA info.userOnlineIP email).getD [] = s →
       lookupA s ip = none →
       ipAllowed ip (getUserAliveIPs aliveMap u.uid) = st →
       ((s.length : Int)) + 1 + (((getUserAliveIPs aliveMap u.uid).length : Int)) = cnt →
       ((st ≠ 1 ∧ u.deviceLimit > 0 ∧ u.deviceLimit < cnt →
          (getUserBucket l tag email ip true aliveMap cg).1.reject = true ∧
          ∃ info2, lookupA (getUserBucket l tag email ip true aliveMap cg).2 tag = some info2 ∧
            lookupA ((lookupA info2.userOnlineIP email).getD []) ip = none) ∧
        (¬(st ≠ 1 ∧ u.deviceLimit > 0 ∧ u.deviceLimit < cnt) →
          (getUserBucket l tag email ip true aliveMap cg).1.reject = false ∧
          ∃ info2, lookupA (getUserBucket l tag email ip true aliveMap cg).2 tag = some info2 ∧
            lookupA ((lookupA info2.userOnlineIP email).getD []) ip = some u.uid))) ∧
    ((getUserBucket [("in", ⟨"in", 0, [("e", ⟨7, 0, 2⟩)], [], [], [], [], [], none⟩)]
        "in" "e" "A" true [] CacheGet.transportError).1.reject = false ∧
     (getUserBucket (getUserBucket
        [("in", ⟨"in", 0, [("e", ⟨7, 0, 2⟩)], [], [], [], [], [], none⟩)]
        "in" "e" "A" true [] CacheGet.transportError).2
        "in" "e" "B" true [] CacheGet.transportError).1.reject = false ∧
     (getUserBucket (getUserBucket (getUserBucket
        [("in", ⟨"in", 0, [("e", ⟨7, 0, 2⟩)], [], [], [], [], [], none⟩)]
        "in" "e" "A" true [] CacheGet.transportError).2
        "in" "e" "B" true [] CacheGet.transportError).2
        "in" "e" "C" true [] CacheGet.transportError).1.reject = true ∧
     (getUserBucket (getUserBucket (getUserBucket (getUserBucket
        [("in", ⟨"in", 0, [("e", ⟨7, 0, 2⟩)], [], [], [], [], [], none⟩)]
        "in" "e" "A" true [] CacheGet.transportError).2
        "in" "e" "B" true [] CacheGet.transportError).2
        "in" "e" "C" true [] CacheGet.transportError).2
        "in" "e" "A" true [] CacheGet.transportError).1.reject = false ∧
     (lookupA (getUserBucket (getUserBucket (getUserBucket (getUserBucket
        [("in", ⟨"in", 0, [("e", ⟨7, 0, 2⟩)], [], [], [], [], [], none⟩)]
        "in" "e" "A" true [] CacheGet.transportError).2
        "in" "e" "B" true [] CacheGet.transportError).2
        "in" "e" "C" true [] CacheGet.transportError).2
        "in" "e" "A" true [] CacheGet.transportError).2 "in").map
       (fun i => ((lookupA i.userOnlineIP "e").getD []).length) = some 2) := by
  constructor
  · intro l tag email ip aliveMap cg info u s st cnt hlk hglob hu hs hnew hst hcnt
    have hmem : st = 0 ∨ st = 1 ∨ st = 2 := by
      rw [← hst]
      exact ipAllowed_mem ip _
    have hz : st = 0 → (((getUserAliveIPs aliveMap u.uid).length : Int)) = 0 := by
      intro h0
      rw [h0] at hst
      have hlz := ipAllowed_zero_length ip (getUserAliveIPs aliveMap u.uid) hst
      omega
    cases h1 : lookupA info.userOnlineIP email with
    | none =>
        rw [h1, Option.getD_none] at hs
        subst hs
        simp only [List.length_nil, Nat.cast_zero] at hcnt
        simp only [getUserBucket, hlk, hu, hst, if_true]
        by_cases he : st = 2 ∧ u.deviceLimit > 0 ∧
            u.deviceLimit ≤ (((getUserAliveIPs aliveMap u.uid).length : Int))
        · rw [if_pos he]
          constructor
          · intro hcond
            refine ⟨rfl, _, lookupA_storeA_self l tag _, ?_⟩
            simp only [h1, Option.getD_none, lookupA]
          · intro hn
            exact absurd ⟨by omega, he.2.1, by omega⟩ hn
        · rw [if_neg he]
          simp only [h1]
          constructor
          · intro hcond
            exfalso
            rcases hmem with h0 | h0 | h0
            · have := hz h0
              omega
            · exact hcond.1 h0
            · exact he ⟨h0, hcond.2.1, by omega⟩
          · intro hn
            simp only [hglob, if_true, Bool.false_eq_true, if_false]
            constructor
            · split
              · split <;> rfl
              · rfl
            · split
              · split <;>
                  exact ⟨_, lookupA_storeA_self l tag _, by
                    simp [lookupA_storeA_self, lookupA]⟩
              · exact ⟨_, lookupA_storeA_self l tag _, by
                  simp [lookupA_storeA_self, lookupA]⟩
    | some s0 =>
        rw [h1, Option.getD_some] at hs
        subst hs
        simp only [getUserBucket, hlk, hu, hst, if_true]
        by_cases he : st = 2 ∧ u.deviceLimit > 0 ∧
            u.deviceLimit ≤ (((getUserAliveIPs aliveMap u.uid).length : Int))
        · rw [if_pos he]
          constructor
          · intro hcond
            refine ⟨rfl, _, lookupA_storeA_self l tag _, ?_⟩
            simp only [h1, Option.getD_some]
            exact hnew
          · intro hn
            exact absurd ⟨by omega, he.2.1, by omega⟩ hn
        · rw [if_neg he]
          simp only [h1, hnew]
          by_cases hi : st ≠ 1 ∧ u.deviceLimit > 0 ∧
              u.deviceLimit < ((storeA s0 ip u.uid).length : Int) +
                (((getUserAliveIPs aliveMap u.uid).length : Int))
          · rw [if_pos hi]
            constructor
            · intro hcond
              refine ⟨rfl, _, lookupA_storeA_self l tag _, ?_⟩
              simp only [lookupA_storeA_self, Option.getD_some]
              exact lookupA_deleteA_self _ ip
            · intro hn
              exfalso
              apply hn
              have hlen := storeA_length_of_absent s0 ip u.uid hnew
              refine ⟨hi.1, hi.2.1, ?_⟩
              rw [hlen] at hi
              push_cast at hi
              omega
          · rw [if_neg hi]
            constructor
            · intro hcond
              exfalso
              apply hi
              have hlen := storeA_length_of_absent s0 ip u.uid hnew
              refine ⟨hcond.1, hcond.2.1, ?_⟩
              rw [hlen]
              push_cast
              omega
            · intro hn
              simp only [hglob, if_true, Bool.false_eq_true, if_false]
              constructor
              · split
                · split <;> rfl
                · rfl
              · split
                · split <;>
                    exact ⟨_, lookupA_storeA_self l tag _, by
                      simp [lookupA_storeA_self]⟩
                · exact ⟨_, lookupA_storeA_self l tag _, by
                    simp [lookupA_storeA_self]⟩
  · exact ⟨rfl, rfl, rfl, rfl, rfl⟩

/-- Witness for C1 at a concrete rejecting state: device limit 1, one IP
already registered, a second distinct IP is rejected. -/
theorem getUserBucket_local_device_limit_witness :
    (getUserBucket [("in", ⟨"in", 0, [("e", ⟨7, 0, 1⟩)], [],
        [("e", [("X", 7)])], [], [], [], none⟩)]
      "in" "e" "Y" true [] CacheGet.notFound).1.reject = true :=
  ((getUserBucket_local_device_limit.1
      [("in", ⟨"in", 0, [("e", ⟨7, 0, 1⟩)], [], [("e", [("X", 7)])], [], [], [], none⟩)]
      "in" "e" "Y" [] CacheGet.notFound
      ⟨"in", 0, [("e", ⟨7, 0, 1⟩)], [], [("e", [("X", 7)])], [], [], [], none⟩
      ⟨7, 0, 1⟩ [("X", 7)] 0 2 rfl rfl rfl rfl rfl rfl (by decide)).1
    (by refine ⟨by decide, by decide, by decide⟩)).1

theorem goOnlineIPs_ou_diff (iam : List (String × Int)) (traffic prevT : List (Int × Int))
    (prevO : List (Int × String)) (T : Int) (ips : List (String × Int)) (st : IPFoldState) :
    ∃ t, (goOnlineIPs iam traffic prevT prevO T ips st).ou = st.ou ++ t ∧
      (goOnlineIPs iam traffic prevT prevO T ips st).diff =
        (st.diff || t.any (fun e => decide ((lookupA prevO e.uid).getD "" ≠ e.ip))) := by
  induction ips generalizing st with
  | nil => exact ⟨[], by simp [goOnlineIPs]⟩
  | cons hd rest ih =>
      obtain ⟨ip, uidv⟩ := hd
      simp only [goOnlineIPs]
      by_cases ha : (lookupA iam ip).getD st.a ≠ 2
      · rw [if_pos ha]
        obtain ⟨t2, hou, hdiff⟩ := ih _
        refine ⟨⟨uidv, if (lookupA traffic uidv).getD 0 - (lookupA prevT uidv).getD 0 ≤ T
            then "" else ip⟩ :: t2, ?_, ?_⟩
        · rw [hou]
          simp
        · rw [hdiff]
          simp [List.any_cons]
          exact (Bool.or_assoc _ _ _).trans (Bool.or_left_comm _ _ _)
      · rw [if_neg ha]
        exact ih _

theorem goOnlineEmails_ou_diff (iam : List (String × Int)) (traffic prevT : List (Int × Int))
    (prevO : List (Int × String)) (T : Int)
    (emails : List (String × List (String × Int))) (st : EmailFoldState) :
    ∃ t, (goOnlineEmails iam traffic prevT prevO T emails st).ou = st.ou ++ t ∧
      (goOnlineEmails iam traffic prevT prevO T emails st).diff =
        (st.diff || t.any (fun e => decide ((lookupA prevO e.uid).getD "" ≠ e.ip))) := by
  induction emails generalizing st with
  | nil => exact ⟨[], by simp [goOnlineEmails]⟩
  | cons hd rest ih =>
      obtain ⟨email, ipMap⟩ := hd
      simp only [goOnlineEmails]
      obtain ⟨t1, hou1, hdiff1⟩ := goOnlineIPs_ou_diff iam traffic prevT prevO T ipMap
        ⟨st.ou, st.diff, st.otr, st.od, 0, 0, 0, ""⟩
      obtain ⟨t2, hou2, hdiff2⟩ := ih _
      refine ⟨t1 ++ t2, ?_, ?_⟩
      · rw [hou2]
        simp only [hou1]
        simp [List.append_assoc]
      · rw [hdiff2]
        simp only [hdiff1]
        simp [List.any_append, Bool.or_assoc]

/-- C7: Reconciler changed flag: `GetOnlineDevice` returns `changed = true`
iff some reported entry's IP differs from the IP previously reported for
that UID (missing previous entry = empty string); concretely, two
consecutive cycles producing the identical `{UID, IP}` result yield
`changed = false`, and a cycle where the user's IP changed from A to B
yields `changed = true` with the new IP in the returned list. -/
theorem getOnlineDevice_changed_flag :
    (∀ (l : Limiter) (tag : String) (traffic : List (Int × Int)) (T : Int)
       (info : InboundInfo) (res : List OnlineUser) (d : Bool) (l2 : Limiter),
       lookupA l tag = some info →
       getOnlineDevice l tag traffic T = (Except.ok (res, d), l2) →
       (d = true ↔ ∃ e ∈ res, (lookupA info.onlineDevice e.uid).getD "" ≠ e.ip)) ∧
    ((getOnlineDevice (getOnlineDevice
        [("in", ⟨"in", 0, [], [], [("e", [("A", 7)])], [], [], [], none⟩)]
        "in" [(7, 10)] 0).2 "in" [(7, 20)] 0).1 =
      Except.ok ([⟨7, "A"⟩], false)) ∧
    ((getOnlineDevice
        [("in", ⟨"in", 0, [], [], [("e", [("B", 7)])], [(7, "A")], [], [(7, 10)], none⟩)]
        "in" [(7, 20)] 0).1 = Except.ok ([⟨7, "B"⟩], true)) := by
  refine ⟨?_, rfl, rfl⟩
  intro l tag traffic T info res d l2 hlk heq
  simp only [getOnlineDevice, hlk] at heq
  obtain ⟨t, hou, hdiff⟩ := goOnlineEmails_ou_diff info.ipAllowedMap traffic info.otraffic
    info.onlineDevice T info.userOnlineIP ⟨[], false, [], [], []⟩
  injection heq with ha hb
  injection ha with hc
  injection hc with h1 h2
  subst h1
  subst h2
  rw [hou, hdiff]
  simp [List.any_eq_true]

/-- Witness for C7: the change-flag characterization at a first cycle that
reports IP A for user 7 with an empty previous snapshot. -/
theorem getOnlineDevice_changed_flag_witness :
    (true = true ↔ ∃ e ∈ [OnlineUser.mk 7 "A"],
      (lookupA ([] : List (Int × String)) e.uid).getD "" ≠ e.ip) :=
  getOnlineDevice_changed_flag.1
    [("in", ⟨"in", 0, [], [], [("e", [("A", 7)])], [], [], [], none⟩)]
    "in" [(7, 10)] 0
    ⟨"in", 0, [], [], [("e", [("A", 7)])], [], [], [], none⟩
    [⟨7, "A"⟩] true
    (getOnlineDevice [("in", ⟨"in", 0, [], [], [("e", [("A", 7)])], [], [], [], none⟩)]
      "in" [(7, 10)] 0).2 rfl rfl

theorem goOnlineEmails_ou_mono (iam : List (String × Int))
    (traffic prevT : List (Int × Int)) (prevO : List (Int × String)) (T : Int)
    (emails : List (String × List (String × Int))) (st : EmailFoldState)
    (e : OnlineUser) (he : e ∈ st.ou) :
    e ∈ (goOnlineEmails iam traffic prevT prevO T emails st).ou := by
  obtain ⟨t, hou, -⟩ := goOnlineEmails_ou_diff iam traffic prevT prevO T emails st
  rw [hou]
  exact List.mem_append_left t he

theorem goOnlineEmails_mem_single (iam : List (String × Int))
    (traffic prevT : List (Int × Int)) (prevO : List (Int × String)) (T : Int)
    (emails : List (String × List (String × Int))) (st : EmailFoldState)
    (email ip : String) (uid : Int)
    (hmem : (email, [(ip, uid)]) ∈ emails)
    (ha : (lookupA iam ip).getD 0 ≠ 2) :
    OnlineUser.mk uid (if (lookupA traffic uid).getD 0 - (lookupA prevT uid).getD 0 ≤ T
      then "" else ip) ∈ (goOnlineEmails iam traffic prevT prevO T emails st).ou := by
  induction emails generalizing st with
  | nil => cases hmem
  | cons hd rest ih =>
      rcases List.mem_cons.mp hmem with heq | hmem2
      · subst heq
        simp only [goOnlineEmails, goOnlineIPs]
        rw [if_pos ha]
        simp only [goOnlineIPs]
        apply goOnlineEmails_ou_mono
        simp
      · simp only [goOnlineEmails]
        exact ih _ hmem2

/-- C6 counterexample: user 7 is bound to IP A with cached classification 2
(not in the allow-list, the spec's "unpinned"), and its traffic delta 0 is
at or below the threshold 5 — yet `GetOnlineDevice` returns the empty list:
the user is omitted entirely, not reported with an empty IP. -/
theorem getOnlineDevice_unpinned_omitted_cex :
    (getOnlineDevice
        [("in", ⟨"in", 0, [], [], [("e", [("A", 7)])], [], [("A", 2)], [], none⟩)]
        "in" [] 5).1 = Except.ok ([], false) := rfl

/-- C6 amended: a user whose effective IP classification is 2 (not in the
allow-list) is omitted from the returned list entirely and the online-IP
entry is purged; every other user is reported — with an empty IP when the
traffic delta is at most T (even a pinned user), and with the bound IP when
the delta exceeds T. -/
theorem getOnlineDevice_activity_threshold :
    (∀ (l : Limiter) (tag : String) (traffic : List (Int × Int)) (T : Int)
       (info : InboundInfo) (email ip : String) (uid : Int),
       lookupA l tag = some info →
       (email, [(ip, uid)]) ∈ info.userOnlineIP →
       (lookupA info.ipAllowedMap ip).getD 0 ≠ 2 →
       ∃ res d l2, getOnlineDevice l tag traffic T = (Except.ok (res, d), l2) ∧
         OnlineUser.mk uid
           (if (lookupA traffic uid).getD 0 - (lookupA info.otraffic uid).getD 0 ≤ T
            then "" else ip) ∈ res) ∧
    (∀ (l : Limiter) (tag : String) (traffic : List (Int × Int)) (T : Int)
       (info : InboundInfo) (email ip : String) (uid : Int),
       lookupA l tag = some info →
       info.userOnlineIP = [(email, [(ip, uid)])] →
       (lookupA info.ipAllowedMap ip).getD 0 = 2 →
       ∃ d l2, getOnlineDevice l tag traffic T = (Except.ok ([], d), l2) ∧
         ∃ info2, lookupA l2 tag = some info2 ∧ info2.userOnlineIP = []) := by
  constructor
  · intro l tag traffic T info email ip uid hlk hmem ha
    simp only [getOnlineDevice, hlk]
    refine ⟨_, _, _, rfl, ?_⟩
    exact goOnlineEmails_mem_single info.ipAllowedMap traffic info.otraffic
      info.onlineDevice T info.userOnlineIP ⟨[], false, [], [], []⟩ email ip uid hmem ha
  · intro l tag traffic T info email ip uid hlk hUOI ha
    simp only [getOnlineDevice, hlk, hUOI, goOnlineEmails, goOnlineIPs, ha]
    rw [if_neg (by simp : ¬((2 : Int) ≠ 2))]
    simp only [goOnlineIPs]
    simp only [true_or, if_true, goOnlineEmails]
    refine ⟨_, _, rfl, _, lookupA_storeA_self l tag _, rfl⟩

/-- Witness for C6's amended statement: a user with no allow-list entry and
delta 10 over threshold 0 is reported with the bound IP. -/
theorem getOnlineDevice_activity_threshold_witness :
    ∃ res d l2,
      getOnlineDevice [("in", ⟨"in", 0, [], [], [("e", [("A", 7)])], [], [], [], none⟩)]
        "in" [(7, 10)] 0 = (Except.ok (res, d), l2) ∧
      OnlineUser.mk 7
        (if (lookupA [(7, 10)] 7).getD 0 -
            (lookupA ([] : List (Int × Int)) 7).getD 0 ≤ 0 then "" else "A") ∈ res :=
  getOnlineDevice_activity_threshold.1
    [("in", ⟨"in", 0, [], [], [("e", [("A", 7)])], [], [], [], none⟩)]
    "in" [(7, 10)] 0
    ⟨"in", 0, [], [], [("e", [("A", 7)])], [], [], [], none⟩
    "e" "A" 7 rfl (by simp) (by decide)

theorem lookupA_deleteA_ne {κ α : Type} [DecidableEq κ] (m : List (κ × α)) (k k2 : κ)
    (h : k ≠ k2) : lookupA (deleteA m k) k2 = lookupA m k2 := by
  induction m with
  | nil => rfl
  | cons hd tl ih =>
      obtain ⟨k3, v3⟩ := hd
      by_cases h3 : k3 = k
      · subst h3
        simp [deleteA, lookupA, h, ih]
      · simp [deleteA, lookupA, h3, ih]

theorem updateUserEntry_userInfo (tag : String) (acc : InboundInfo) (u : ApiUserInfo) :
    (updateUserEntry tag acc u).userInfo =
      storeA acc.userInfo (compositeKey tag u.email u.uid)
        ⟨u.uid, u.speedLimit, u.deviceLimit⟩ := by
  simp only [updateUserEntry]
  split
  · split <;> rfl
  · rfl

theorem updateUserEntry_frame (tag : String) (acc : InboundInfo) (u : ApiUserInfo) :
    (updateUserEntry tag acc u).tag = acc.tag ∧
    (updateUserEntry tag acc u).nodeSpeedLimit = acc.nodeSpeedLimit ∧
    (updateUserEntry tag acc u).userOnlineIP = acc.userOnlineIP ∧
    (updateUserEntry tag acc u).onlineDevice = acc.onlineDevice ∧
    (updateUserEntry tag acc u).ipAllowedMap = acc.ipAllowedMap ∧
    (updateUserEntry tag acc u).otraffic = acc.otraffic ∧
    (updateUserEntry tag acc u).globalConfig = acc.globalConfig := by
  simp only [updateUserEntry]
  split
  · split <;> exact ⟨rfl, rfl, rfl, rfl, rfl, rfl, rfl⟩
  · exact ⟨rfl, rfl, rfl, rfl, rfl, rfl, rfl⟩

theorem updateUserEntry_bucketHub_ne (tag : String) (acc : InboundInfo) (u : ApiUserInfo)
    (key : String) (hk : key ≠ compositeKey tag u.email u.uid) :
    lookupA (updateUserEntry tag acc u).bucketHub key = lookupA acc.bucketHub key := by
  simp only [updateUserEntry]
  split
  · split
    · exact lookupA_storeA_ne _ _ _ _ (fun h => hk h.symm)
    · rfl
  · exact lookupA_deleteA_ne _ _ _ (fun h => hk h.symm)

/-- C10: frame of `UpdateInboundLimiter` on an existing inbound: the result
is the stored fold of per-user updates; the tag, node speed cap, online-IP
set, online snapshot, allow-status cache, traffic accumulator and global
config are unchanged; quota entries and buckets for keys not among the
supplied users' composite keys are unchanged; no quota entry is ever
removed (removed users are only dropped by a wholesale replacement); and
other inbounds are untouched. -/
theorem updateInboundLimiter_frame
    (l : Limiter) (tag : String) (users : List ApiUserInfo) (info : InboundInfo)
    (hlk : lookupA l tag = some info) :
    updateInboundLimiter l tag users =
      (none, storeA l tag (users.foldl (updateUserEntry tag) info)) ∧
    (users.foldl (updateUserEntry tag) info).tag = info.tag ∧
    (users.foldl (updateUserEntry tag) info).nodeSpeedLimit = info.nodeSpeedLimit ∧
    (users.foldl (updateUserEntry tag) info).userOnlineIP = info.userOnlineIP ∧
    (users.foldl (updateUserEntry tag) info).onlineDevice = info.onlineDevice ∧
    (users.foldl (updateUserEntry tag) info).ipAllowedMap = info.ipAllowedMap ∧
    (users.foldl (updateUserEntry tag) info).otraffic = info.otraffic ∧
    (users.foldl (updateUserEntry tag) info).globalConfig = info.globalConfig ∧
    (∀ key, key ∉ users.map (fun u => compositeKey tag u.email u.uid) →
      lookupA (users.foldl (updateUserEntry tag) info).userInfo key =
        lookupA info.userInfo key ∧
      lookupA (users.foldl (updateUserEntry tag) info).bucketHub key =
        lookupA info.bucketHub key) ∧
    (∀ key, (lookupA info.userInfo key).isSome →
      (lookupA (users.foldl (updateUserEntry tag) info).userInfo key).isSome) ∧
    (∀ t2, t2 ≠ tag →
      lookupA (updateInboundLimiter l tag users).2 t2 = lookupA l t2) := by
  have hgen : ∀ (us : List ApiUserInfo) (acc : InboundInfo),
      (us.foldl (updateUserEntry tag) acc).tag = acc.tag ∧
      (us.foldl (updateUserEntry tag) acc).nodeSpeedLimit = acc.nodeSpeedLimit ∧
      (us.foldl (updateUserEntry tag) acc).userOnlineIP = acc.userOnlineIP ∧
      (us.foldl (updateUserEntry tag) acc).onlineDevice = acc.onlineDevice ∧
      (us.foldl (updateUserEntry tag) acc).ipAllowedMap = acc.ipAllowedMap ∧
      (us.foldl (updateUserEntry tag) acc).otraffic = acc.otraffic ∧
      (us.foldl (updateUserEntry tag) acc).globalConfig = acc.globalConfig ∧
      (∀ key, key ∉ us.map (fun u => compositeKey tag u.email u.uid) →
        lookupA (us.foldl (updateUserEntry tag) acc).userInfo key =
          lookupA acc.userInfo key ∧
        lookupA (us.foldl (updateUserEntry tag) acc).bucketHub key =
          lookupA acc.bucketHub key) ∧
      (∀ key, (lookupA acc.userInfo key).isSome →
        (lookupA (us.foldl (updateUserEntry tag) acc).userInfo key).isSome) := by
    intro us
    induction us with
    | nil =>
        intro acc
        exact ⟨rfl, rfl, rfl, rfl, rfl, rfl, rfl,
          fun key hk => ⟨rfl, rfl⟩, fun key h => h⟩
    | cons u rest ih =>
        intro acc
        simp only [List.foldl_cons]
        obtain ⟨f1, f2, f3, f4, f5, f6, f7, hkeys, hsome⟩ := ih (updateUserEntry tag acc u)
        obtain ⟨g1, g2, g3, g4, g5, g6, g7⟩ := updateUserEntry_frame tag acc u
        refine ⟨f1.trans g1, f2.trans g2, f3.trans g3, f4.trans g4, f5.trans g5,
          f6.trans g6, f7.trans g7, ?_, ?_⟩
        · intro key hk
          simp only [List.map_cons, List.mem_cons, not_or] at hk
          obtain ⟨hk1, hk2⟩ := hk
          obtain ⟨e1, e2⟩ := hkeys key hk2
          refine ⟨e1.trans ?_, e2.trans (updateUserEntry_bucketHub_ne tag acc u key hk1)⟩
          rw [updateUserEntry_userInfo]
          exact lookupA_storeA_ne _ _ _ _ (fun h => hk1 h.symm)
        · intro key hsm
          apply hsome
          rw [updateUserEntry_userInfo]
          by_cases hk : key = compositeKey tag u.email u.uid
          · subst hk
            rw [lookupA_storeA_self]
            rfl
          · rw [lookupA_storeA_ne _ _ _ _ (fun h => hk h.symm)]
            exact hsm
  obtain ⟨f1, f2, f3, f4, f5, f6, f7, hkeys, hsome⟩ := hgen users info
  have heq : updateInboundLimiter l tag users =
      (none, storeA l tag (users.foldl (updateUserEntry tag) info)) := by
    simp only [updateInboundLimiter, hlk]
  refine ⟨heq, f1, f2, f3, f4, f5, f6, f7, hkeys, hsome, ?_⟩
  intro t2 ht
  rw [heq]
  exact lookupA_storeA_ne l tag t2 _ (fun h => ht h.symm)

/-- Witness for C10 at a concrete one-inbound, one-user update. -/
theorem updateInboundLimiter_frame_witness :
    updateInboundLimiter
        [("in", ⟨"in", 5, [("k", ⟨7, 1, 2⟩)], [("k", 1)], [], [], [], [], none⟩)]
        "in" [⟨8, "f", 0, 3⟩] =
      (none, storeA [("in", ⟨"in", 5, [("k", ⟨7, 1, 2⟩)], [("k", 1)], [], [], [], [], none⟩)]
        "in" ([⟨8, "f", 0, 3⟩].foldl (updateUserEntry "in")
          ⟨"in", 5, [("k", ⟨7, 1, 2⟩)], [("k", 1)], [], [], [], [], none⟩)) :=
  (updateInboundLimiter_frame
    [("in", ⟨"in", 5, [("k", ⟨7, 1, 2⟩)], [("k", 1)], [], [], [], [], none⟩)]
    "in" [⟨8, "f", 0, 3⟩]
    ⟨"in", 5, [("k", ⟨7, 1, 2⟩)], [("k", 1)], [], [], [], [], none⟩ rfl).1
